import Mathlib

/-!
Verification development for the foreign-object proxying layer of the
deno_python bridge (src/python.ts, with helpers from src/util.ts).

The embedding is shallow: each TypeScript function relevant to the claims is
translated into an executable Lean definition over explicit data.  Foreign
interpreter state (handles, the error indicator, attribute/item tables) is
made explicit, since the TypeScript code only observes it through the FFI
entry-point table.
-/

namespace DenoPython

/-- An opaque foreign handle (a machine pointer in the source).  `Option`
is used wherever the source checks a call result against `null`. -/
abbrev Handle := Nat

/-! ## Host values

`JSVal` is a small model of the `PythonConvertible` host values that the
claims exercise: numbers, strings, booleans and plain keyed objects. -/

inductive JSVal where
  | vInt (n : Int)
  | vStr (s : String)
  | vBool (b : Bool)
  | vObj (fields : List (String × JSVal))

/-- One entry of the positional list passed to `PyObject.call`: either an
ordinary value or a `NamedArgument` marker carrying a (name, value) pair
(the source's `NamedArgument` class wraps the value with `PyObject.from`;
the pair itself is what the call algorithm consumes). -/
inductive Arg where
  | pos (v : JSVal)
  | named (name : String) (v : JSVal)

/-! ## JS string-keyed records

`named` in `PyObject.call` is a plain JS record.  `named[k] = v` updates an
existing key in place and otherwise appends; `Object.entries` enumerates in
that (insertion) order.  Keyword-argument names are identifiers, so the JS
special ordering of integer-like keys does not arise in any claim. -/

/-- JS record assignment `r[k] = v`. -/
def recordSet (r : List (String × JSVal)) (k : String) (v : JSVal) :
    List (String × JSVal) :=
  match r with
  | [] => [(k, v)]
  | (k', v') :: rest =>
      if k' = k then (k, v) :: rest else (k', v') :: recordSet rest k v

/-- JS record lookup `r[k]`. -/
def recordGet (r : List (String × JSVal)) (k : String) : Option JSVal :=
  match r with
  | [] => none
  | (k', v') :: rest => if k' = k then some v' else recordGet rest k

/-! ## PyObject.call (src/python.ts lines 747-794)

The source first counts the `NamedArgument` entries, computes
`positionalCount = positional.length - namedCount` and throws a
`TypeError` (the spec's `ArgumentCountError`) if that count is negative.
It then walks the list once: `NamedArgument`s are stored into the `named`
record (`named[arg.name] = arg.value`), every other entry is placed into
the positional tuple at the next free slot.  Finally the kwargs dict is
built from `Object.entries(named)`. -/

/-- Is this entry a `NamedArgument` (the `arg instanceof NamedArgument`
test of the source)? -/
def Arg.isNamed : Arg → Bool
  | .named _ _ => true
  | .pos _ => false

/-- `positional.filter((arg) => arg instanceof NamedArgument).length`. -/
def namedCount (positional : List Arg) : Nat :=
  (positional.filter Arg.isNamed).length

/-- `positional.length - namedCount`, as the JS subtraction (which can in
principle go negative, hence `Int`). -/
def positionalCount (positional : List Arg) : Int :=
  (positional.length : Int) - (namedCount positional : Int)

/-- The partition loop of `PyObject.call`: `tup` accumulates the values
placed into the positional tuple (slot order `startIndex++` is left-to-right
append order), `named` is the mutated keyword record. -/
def callLoop : List Arg → List JSVal → List (String × JSVal) →
    List JSVal × List (String × JSVal)
  | [], tup, named => (tup, named)
  | .pos v :: rest, tup, named => callLoop rest (tup ++ [v]) named
  | .named k v :: rest, tup, named => callLoop rest tup (recordSet named k v)

/-- The positional tuple and keyword dict that `PyObject.call` hands to the
foreign `PyObject_Call` entry point, or the defensive argument-count error. -/
structure CallArgs where
  tuple : List JSVal
  kwargs : List (String × JSVal)

/-- Argument assembly of `PyObject.call` (the part before the foreign call
itself). -/
def callBuildArgs (positional : List Arg) (named : List (String × JSVal)) :
    Except String CallArgs :=
  if positionalCount positional < 0 then
    .error "ArgumentCountError"
  else
    let r := callLoop positional [] named
    .ok ⟨r.1, r.2⟩

/-- The value of the last `NamedArgument` with the given name in the
positional list, if any (specification-side description of the hoisting). -/
def lastNamed : List Arg → String → Option JSVal
  | [], _ => none
  | .pos _ :: rest, k => lastNamed rest k
  | .named k' v :: rest, k =>
      match lastNamed rest k with
      | some w => some w
      | none => if k' = k then some v else none

/-- Specification-side description of the true positionals: the non-named
entries in original relative order. -/
def posOnly (positional : List Arg) : List JSVal :=
  positional.filterMap fun a =>
    match a with
    | .pos v => some v
    | .named _ _ => none

/-! ## PyObject.valueOf (src/python.ts lines 702-742)

`valueOf` queries `PyObject_Type(handle)` and compares the result with
pointer identity (`Deno.UnsafePointer.equals`) against the nine handles the
`Python` constructor cached from builtins (`python.None`, `python.bool`,
..., `python.tuple`).  The first match selects the typed accessor; no match
falls through to `this.proxy`. -/

/-- The nine cached builtin handles held by the `Python` singleton. -/
structure TypeCache where
  noneType : Handle
  boolType : Handle
  intType : Handle
  floatType : Handle
  strType : Handle
  listType : Handle
  dictType : Handle
  setType : Handle
  tupleType : Handle

/-- Which branch of `valueOf` runs: a typed accessor, `null`, or the proxy
fallback. -/
inductive CoerceKind where
  | toNull
  | asBoolean
  | asLong
  | asDouble
  | asString
  | asArray
  | asDict
  | asSet
  | asTuple
  | proxy
deriving DecidableEq

/-- The dispatch of `valueOf`: `ty` is the result of `PyObject_Type` on the
receiver's handle.  Note that the function receives only the exact type
handle: no `isinstance` information is consulted anywhere. -/
def valueOfDispatch (tc : TypeCache) (ty : Handle) : CoerceKind :=
  if ty = tc.noneType then .toNull
  else if ty = tc.boolType then .asBoolean
  else if ty = tc.intType then .asLong
  else if ty = tc.floatType then .asDouble
  else if ty = tc.strType then .asString
  else if ty = tc.listType then .asArray
  else if ty = tc.dictType then .asDict
  else if ty = tc.setType then .asSet
  else if ty = tc.tupleType then .asTuple
  else .proxy

/-- The cached handles as a list, in dispatch order. -/
def cachedTypes (tc : TypeCache) : List Handle :=
  [tc.noneType, tc.boolType, tc.intType, tc.floatType, tc.strType,
   tc.listType, tc.dictType, tc.setType, tc.tupleType]

/-! ## The slice mini-language (src/util.ts `SliceItemRegExp`, src/python.ts
`isSlice` / `toSlice`, lines 977-1019)

The source tests proxy index keys against three anchored regular
expressions.  Each is compiled here into an equivalent deterministic
matcher over `List Char` (the character classes `\d`, `\s`, `:`, `.` are
pairwise disjoint, so the greedy match is deterministic and no backtracking
arises). -/

/-- JS `\s` for the characters that occur in practice (space, tab, CR, LF,
vertical tab, form feed; the exotic Unicode space classes are not modelled). -/
def jsWs (c : Char) : Bool :=
  c = ' ' || c = '\t' || c = '\n' || c = '\r' || c = '\x0b' || c = '\x0c'

/-- Consume leading `\s*`. -/
def dropWsL (l : List Char) : List Char := l.dropWhile jsWs

/-- `/^\d+$/.test s` (the proxy handlers' integer-index pattern). -/
def digitTest (s : String) : Bool :=
  !s.toList.isEmpty && s.toList.all Char.isDigit

/-- Decimal value of a digit string. -/
def natOfDigits (l : List Char) : Nat :=
  l.foldl (fun acc c => acc * 10 + (c.toNat - 48)) 0

/-- Match the group `-?\d+` at the head of the input, returning its value
and the rest; `none` when the group cannot match non-empty here. -/
def takeInt (l : List Char) : Option (Int × List Char) :=
  match l with
  | '-' :: r =>
      let ds := r.takeWhile Char.isDigit
      if ds.isEmpty then none
      else some (-(natOfDigits ds : Int), r.dropWhile Char.isDigit)
  | _ =>
      let ds := l.takeWhile Char.isDigit
      if ds.isEmpty then none
      else some ((natOfDigits ds : Int), l.dropWhile Char.isDigit)

/-- `/^\s*-?\d+\s*$/` on characters. -/
def numTestL (l : List Char) : Bool :=
  match takeInt (dropWsL l) with
  | some (_, rest) => (dropWsL rest).isEmpty
  | none => false

/-- `/^\s*-?\d+\s*$/.test s` (the "Number" alternative of `isSlice` and the
bound test inside `toSlice`). -/
def numTest (s : String) : Bool := numTestL s.toList

/-- `/^\s*\.\.\.\s*$/` on characters. -/
def ellipsisTestL (l : List Char) : Bool :=
  match dropWsL l with
  | '.' :: '.' :: '.' :: rest => (dropWsL rest).isEmpty
  | _ => false

/-- `/^\s*\.\.\.\s*$/.test s` (the "Ellipsis" alternative of `isSlice`). -/
def ellipsisTest (s : String) : Bool := ellipsisTestL s.toList

/-- `SliceItemRegExp`, i.e.
`/^\s*(-?\d+)?\s*:\s*(-?\d+)?\s*(:\s*(-?\d+)?\s*)?$/`, on characters. -/
def sliceItemTestL (l : List Char) : Bool :=
  let l1 := dropWsL l
  let l2 := match takeInt l1 with | some (_, r) => r | none => l1
  match dropWsL l2 with
  | ':' :: r =>
      let r1 := dropWsL r
      let r2 := match takeInt r1 with | some (_, rr) => rr | none => r1
      match dropWsL r2 with
      | [] => true
      | ':' :: r3 =>
          let r4 := dropWsL r3
          let r5 := match takeInt r4 with | some (_, rr) => rr | none => r4
          (dropWsL r5).isEmpty
      | _ => false
  | _ => false

/-- `SliceItemRegExp.test s`. -/
def sliceItemTest (s : String) : Bool := sliceItemTestL s.toList

/-- JS `String.prototype.split` with a one-character separator
(`"".split(",") = [""]`, `"a,".split(",") = ["a", ""]`). -/
def splitOnCharL (sep : Char) : List Char → List (List Char)
  | [] => [[]]
  | c :: rest =>
      let r := splitOnCharL sep rest
      if c = sep then [] :: r
      else
        match r with
        | h :: t => (c :: h) :: t
        | [] => [[c]]

/-- JS `value.includes(c)` for a single character. -/
def hasChar (c : Char) (l : List Char) : Bool :=
  l.any fun d => d == c

/-- JS `value.includes("...")`: three consecutive dots occur somewhere. -/
def hasEllipsisSub : List Char → Bool
  | [] => false
  | c :: rest =>
      ((c == '.') && (rest.take 2 == ['.', '.'])) || hasEllipsisSub rest

/-- `isSlice` (src/python.ts lines 981-992): the key must contain a colon
or an ellipsis, and every comma-separated item must be a proper slice, a
signed integer, or an ellipsis. -/
def isSliceL (l : List Char) : Bool :=
  if !hasChar ':' l && !hasEllipsisSub l then false
  else
    (splitOnCharL ',' l).all fun item =>
      sliceItemTestL item || numTestL item || ellipsisTestL item

/-- `isSlice` on a string key. -/
def isSlice (s : String) : Bool := isSliceL s.toList

/-- The foreign object `toSlice` builds: an `int` index, the `Ellipsis`
singleton, a `slice(start, stop, step)` (bounds `none` when the source
passes `undefined`, i.e. `None`), or a tuple of such. -/
inductive PySliceExpr where
  | intIdx (n : Int)
  | ellipsisE
  | sliceE (start stop step : Option Int)
  | tupleE (items : List PySliceExpr)

/-- The bound mapper inside `toSlice`:
`(bound) => (/^\s*-?\d+\s*$/.test(bound) ? parseInt(bound) : undefined)`.
For strings that pass the test, JS `parseInt` is exactly `takeInt` after
leading-whitespace removal. -/
def sliceBound (l : List Char) : Option Int :=
  if numTestL l then (takeInt (dropWsL l)).map Prod.fst else none

/-- `toSlice` on one comma-free item (the source's non-comma branches, in
source order: number, ellipsis, slice). -/
def toSliceItemL (l : List Char) : PySliceExpr :=
  if numTestL l then .intIdx (((takeInt (dropWsL l)).map Prod.fst).getD 0)
  else if ellipsisTestL l then .ellipsisE
  else
    let parts := (splitOnCharL ':' l).map sliceBound
    .sliceE (parts.getD 0 none) (parts.getD 1 none) (parts.getD 2 none)

/-- `toSlice` (src/python.ts lines 997-1019).  On a comma-separated key the
source maps its own recursion over the pieces; every piece is comma-free,
so that recursive call takes the non-comma path, which is `toSliceItemL`. -/
def toSliceL (l : List Char) : PySliceExpr :=
  if hasChar ',' l then .tupleE ((splitOnCharL ',' l).map toSliceItemL)
  else toSliceItemL l

/-- `toSlice` on a string key. -/
def toSlice (s : String) : PySliceExpr := toSliceL s.toList

/-! ## Foreign list slicing (external collaborator)

Modelled from the spec: the foreign interpreter applying a
`slice(start, stop, step)` to a list is not part of this repository (the
repository only constructs the slice object and calls the item-get entry
point); spec section 8 fixes its expected behaviour on the two examples.
The standard positive-step slicing rule is used: negative bounds count
from the end, bounds clamp to the list, and every `step`-th index from the
normalized start below the normalized stop is selected. -/

/-- Normalize one slice bound against a list length (positive step). -/
def normSliceIdx (b : Option Int) (dflt : Nat) (len : Nat) : Nat :=
  match b with
  | none => dflt
  | some i => if i < 0 then ((len : Int) + i).toNat else min i.toNat len

/-- Indices selected by `slice(start, stop, step)` on a `len`-element list
(positive `step`). -/
def sliceIndices (start stop : Option Int) (step : Nat) (len : Nat) :
    List Nat :=
  let a := normSliceIdx start 0 len
  let b := normSliceIdx stop len len
  (List.range len).filter fun j => a ≤ j && j < b && (j - a) % step = 0

/-- Elements selected by `slice(start, stop, step)` on a list. -/
def sliceListGet {α : Type} (l : List α) (start stop : Option Int)
    (step : Nat) : List α :=
  (sliceIndices start stop step l.length).filterMap fun j => l.get? j

/-! ## The Dynamic Proxy handlers (src/python.ts lines 258-394)

The proxy's `get`/`set` handlers observe the foreign object only through a
fixed set of FFI calls.  `PyObjState` records the answers the foreign
runtime would give to those calls, so the handlers become pure functions
of it. -/

/-- The foreign object behind one proxy, as seen through the FFI calls the
handlers make. -/
structure PyObjState where
  /-- `PyObject_IsInstance(handle, python.list)` -/
  isListInst : Bool
  /-- `PyObject_IsInstance(handle, python.tuple)` -/
  isTupleInst : Bool
  /-- `PyObject_IsInstance(handle, python.dict)` -/
  isDictInst : Bool
  /-- `PyObject_GetAttrString` results (`none` = null handle, error set) -/
  attrs : String → Option Handle
  /-- `PyObject_HasAttrString` results -/
  hasAttrFn : String → Bool
  /-- `PyDict_GetItemString` results -/
  dictItems : String → Option Handle
  /-- `PyList_GetItem` results -/
  listItems : Nat → Option Handle
  /-- `PyObject_GetItem` results for a slice key -/
  sliceItems : PySliceExpr → Option Handle
  /-- `PyObject_SetAttrString` status -/
  setAttrStatus : String → Int

/-- The symbols a proxy get/set/has trap can receive.  The first five are
defined on the facade `object` function; `otherSym` stands for any other
symbol (not present on the facade). -/
inductive SymKey where
  | iteratorSym
  | proxiedPyObjectSym
  | denoInspectSym
  | nodeInspectSym
  | toStringTagSym
  | otherSym (desc : String)
deriving DecidableEq

/-- A proxy trap key: a symbol or a string. -/
inductive PropKey where
  | symK (s : SymKey)
  | strK (n : String)
deriving DecidableEq

/-- Which symbols are `in object` (the five `Object.defineProperty` symbol
keys on the facade function). -/
def facadeSymbols : SymKey → Bool
  | .otherSym _ => false
  | _ => true

/-- JS `String(symbol)`. -/
def symToString : SymKey → String
  | .iteratorSym => "Symbol(Symbol.iterator)"
  | .proxiedPyObjectSym => "Symbol(ProxiedPyObject)"
  | .denoInspectSym => "Symbol(Deno.customInspect)"
  | .nodeInspectSym => "Symbol(nodejs.util.inspect.custom)"
  | .toStringTagSym => "Symbol(Symbol.toStringTag)"
  | .otherSym d => "Symbol(" ++ d ++ ")"

/-- JS `String(name)` on a trap key. -/
def keyToString : PropKey → String
  | .symK s => symToString s
  | .strK n => n

/-- Which string names are `in object`: the facade's own defined
properties `toString` and `valueOf`, plus the properties every JS function
object inherits (own `name`/`length`/`prototype` and the
`Function.prototype` / `Object.prototype` chain). -/
def facadeStrings (n : String) : Bool :=
  n ∈ ["toString", "valueOf", "name", "length", "prototype", "call",
       "apply", "bind", "constructor", "hasOwnProperty", "isPrototypeOf",
       "propertyIsEnumerable", "toLocaleString"]

/-- `name in object` for either kind of key. -/
def facadeHas : PropKey → Bool
  | .symK s => facadeSymbols s
  | .strK n => facadeStrings n

/-- What the proxy get trap returns. -/
inductive GetOutcome where
  | facadeMember (k : PropKey)
  | listItemG (h : Handle)
  | sliceItemG (h : Handle)
  | attrG (h : Handle)
  | dictItemG (h : Handle)
  | undefinedG
deriving DecidableEq

/-- The tail of the get trap from `maybeGetAttr` onwards (source lines
328-346): attribute first; if absent, the facade's own properties; if
absent and the object is a dict, the string-keyed item; else undefined. -/
def getAttrPhase (st : PyObjState) (name : PropKey) : GetOutcome :=
  match st.attrs (keyToString name) with
  | some h => .attrG h
  | none =>
      if facadeHas name then .facadeMember name
      else
        match name with
        | .strK n =>
            if st.isDictInst then
              match st.dictItems n with
              | some h => .dictItemG h
              | none => .undefinedG
            else .undefinedG
        | .symK _ => .undefinedG

/-- The slice branch of the get trap (source lines 317-326) followed by the
attribute phase when the item-get returns null. -/
def getSlicePhase (st : PyObjState) (n : String) : GetOutcome :=
  if isSlice n then
    match st.sliceItems (toSlice n) with
    | some h => .sliceItemG h
    | none => getAttrPhase st (.strK n)
  else getAttrPhase st (.strK n)

/-- The proxy get trap (source lines 298-347): facade symbols first, then
the integer-index branch for lists/tuples, then the slice branch, then the
attribute/facade/dict-item phase. -/
def proxyGet (st : PyObjState) (name : PropKey) : GetOutcome :=
  match name with
  | .symK s =>
      if facadeSymbols s then .facadeMember name
      else getAttrPhase st name
  | .strK n =>
      if digitTest n && (st.isListInst || st.isTupleInst) then
        match st.listItems (natOfDigits n.toList) with
        | some h => .listItemG h
        | none => getSlicePhase st n
      else getSlicePhase st n

/-- What the proxy set trap does. -/
inductive SetOutcome where
  | attrSet
  | dictItemSet
  | listItemSet
  | sliceItemSet
  | rejected
deriving DecidableEq

/-- The proxy set trap (source lines 349-379): attribute assignment if
`hasAttr` already holds; else dict string-keyed item-set; else list
index-set for integer-shaped names; else slice item-set; else reject.  The
second component is the trap's boolean return value. -/
def proxySet (st : PyObjState) (name : PropKey) : SetOutcome × Bool :=
  let n := keyToString name
  if st.hasAttrFn n then (.attrSet, true)
  else if st.isDictInst then (.dictItemSet, true)
  else if st.isListInst && digitTest n then (.listItemSet, true)
  else if isSlice n then (.sliceItemSet, true)
  else (.rejected, false)

/-! ### FFI call traces

For the error-check claims the interesting question is *which* foreign
calls a handler performs and whether `maybeThrowError` runs after them.
`proxyGetTrace` / `proxySetTrace` mirror the handlers above, recording the
foreign calls in order. -/

/-- The foreign calls the proxy handlers can make, plus the two error
operations: `opErrClear` is `PyErr_Clear` (inside `maybeGetAttr`) and
`opErrCheck` is `maybeThrowError`. -/
inductive FfiOp where
  | opHasAttrString (name : String)
  | opSetAttrString (name : String)
  | opDictSetItemString (key : String)
  | opListSetItem (idx : Nat)
  | opObjectSetItem (key : PySliceExpr)
  | opListGetItem (idx : Nat)
  | opObjectGetItem (key : PySliceExpr)
  | opGetAttrString (name : String)
  | opDictGetItemString (key : String)
  | opErrClear
  | opErrCheck

/-- Foreign calls performed by the get trap from `maybeGetAttr` onwards:
the attribute lookup, then on a null result the `PyErr_Clear` inside
`maybeGetAttr`, then (facade miss, dict instance) the dict item lookup. -/
def getAttrPhaseTrace (st : PyObjState) (name : PropKey) : List FfiOp :=
  let s := keyToString name
  .opGetAttrString s ::
    match st.attrs s with
    | some _ => []
    | none =>
        .opErrClear ::
          (if facadeHas name then []
           else
             match name with
             | .strK n => if st.isDictInst then [.opDictGetItemString n] else []
             | .symK _ => [])

/-- Foreign calls of the slice branch and its fall-through. -/
def getSlicePhaseTrace (st : PyObjState) (n : String) : List FfiOp :=
  if isSlice n then
    .opObjectGetItem (toSlice n) ::
      match st.sliceItems (toSlice n) with
      | some _ => []
      | none => getAttrPhaseTrace st (.strK n)
  else getAttrPhaseTrace st (.strK n)

/-- Foreign calls of the whole get trap, in order. -/
def proxyGetTrace (st : PyObjState) (name : PropKey) : List FfiOp :=
  match name with
  | .symK s =>
      if facadeSymbols s then [] else getAttrPhaseTrace st name
  | .strK n =>
      if digitTest n && (st.isListInst || st.isTupleInst) then
        .opListGetItem (natOfDigits n.toList) ::
          match st.listItems (natOfDigits n.toList) with
          | some _ => []
          | none => getSlicePhaseTrace st n
      else getSlicePhaseTrace st n

/-- Foreign calls of the set trap, in order.  `setAttr` (source lines
581-591) runs `maybeThrowError` only when `PyObject_SetAttrString` reports
a nonzero status; the three item-set branches perform their single foreign
call and return `true` with no error check. -/
def proxySetTrace (st : PyObjState) (name : PropKey) : List FfiOp :=
  let n := keyToString name
  .opHasAttrString n ::
    (if st.hasAttrFn n then
      .opSetAttrString n ::
        (if st.setAttrStatus n ≠ 0 then [.opErrCheck] else [])
    else if st.isDictInst then [.opDictSetItemString n]
    else if st.isListInst && digitTest n then
      [.opListSetItem (natOfDigits n.toList)]
    else if isSlice n then [.opObjectSetItem (toSlice n)]
    else [])

/-! ## maybeGetAttr and the foreign error indicator (src/python.ts lines
554-564)

`maybeGetAttr` wraps `PyObject_GetAttrString`.  The foreign runtime's
single-slot error indicator is modelled explicitly: a failed attribute
lookup (null result) sets it; `PyErr_Clear` unsets it. -/

/-- The foreign runtime's single-slot error indicator. -/
structure PyErrState where
  errSet : Bool

/-- `PyErr_Clear`. -/
def pyErrClear (_ : PyErrState) : PyErrState := ⟨false⟩

/-- `PyObject_GetAttrString`: `lookup` is the answer the foreign runtime
gives for this attribute; a null answer raises `AttributeError`, i.e. sets
the indicator, while a successful call leaves the indicator as it was. -/
def pyGetAttrString (lookup : Option Handle) (st : PyErrState) :
    Option Handle × PyErrState :=
  (lookup, if lookup.isNone then ⟨true⟩ else st)

/-- `maybeGetAttr`: perform the lookup; on a null handle clear the error
and return the absent-marker (`none` models JS `undefined`), otherwise
return the wrapper.  The return type is a plain pair: no exception path
exists. -/
def maybeGetAttr (lookup : Option Handle) (st : PyErrState) :
    Option Handle × PyErrState :=
  let r := pyGetAttrString lookup st
  match r.1 with
  | none => (none, pyErrClear r.2)
  | some h => (some h, r.2)

/-! ## Python.run (src/python.ts lines 916-923) -/

/-- `Python.run`: invoke the foreign `PyRun_SimpleString` entry point
(`simpleString` gives its status for each source text) and throw
`EvalError` exactly on a nonzero status. -/
def pythonRun (simpleString : String → Int) (code : String) :
    Except String Unit :=
  if simpleString code ≠ 0 then
    .error "EvalError: Failed to run python code"
  else .ok ()

/-! ## The Callback trampoline (src/python.ts lines 140-168)

The `Deno.UnsafeCallback` body receives three pointers (self, positional
args, keyword args).  It builds the host keyword record (`{}` when the
kwargs pointer is null, otherwise the entries of `asDict`), spreads the
positional values (`[]` when the args pointer is null, otherwise
`valueOf`), calls the host function, converts the result with
`PyObject.from` and returns that object's handle. -/

/-- A wrapper holding one handle (the `PyObject` the trampoline builds its
result with). -/
structure PyObjRef where
  handle : Handle

/-- The trampoline body.  `fromVal` is `PyObject.from`, `asDictEntries`
is `new PyObject(kwargs).asDict()` flattened to entries, `valueOfList` is
`new PyObject(args).valueOf()` (a tuple materializes to a host array).
`args`/`kwargs` are `none` when the foreign caller passes null pointers. -/
def callbackTrampoline
    (fromVal : JSVal → PyObjRef)
    (asDictEntries : Handle → List (String × JSVal))
    (valueOfList : Handle → List JSVal)
    (callback : List (String × JSVal) → List JSVal → JSVal)
    (args kwargs : Option Handle) : Handle :=
  (fromVal (callback
      (match kwargs with
       | none => []
       | some k => asDictEntries k)
      (match args with
       | none => []
       | some a => valueOfList a))).handle

/-! # Helper lemmas -/

theorem posOnly_cons_pos (v : JSVal) (rest : List Arg) :
    posOnly (.pos v :: rest) = v :: posOnly rest := rfl

theorem posOnly_cons_named (k : String) (v : JSVal) (rest : List Arg) :
    posOnly (.named k v :: rest) = posOnly rest := rfl

theorem callLoop_fst (args : List Arg) (tup : List JSVal)
    (named : List (String × JSVal)) :
    (callLoop args tup named).1 = tup ++ posOnly args := by
  induction args generalizing tup named with
  | nil => simp [callLoop, posOnly]
  | cons a rest ih =>
      cases a with
      | pos v => simp [callLoop, posOnly_cons_pos, ih]
      | named k v => simp [callLoop, posOnly_cons_named, ih]

theorem recordGet_recordSet (r : List (String × JSVal)) (k k' : String)
    (v : JSVal) :
    recordGet (recordSet r k v) k' =
      if k = k' then some v else recordGet r k' := by
  induction r with
  | nil => by_cases h : k = k' <;> simp [recordSet, recordGet, h]
  | cons hd tl ih =>
      obtain ⟨k0, v0⟩ := hd
      by_cases h0 : k0 = k
      · subst h0
        by_cases h1 : k0 = k' <;> simp [recordSet, recordGet, h1]
      · simp only [recordSet, if_neg h0, recordGet]
        by_cases h1 : k0 = k'
        · have hkk : ¬ k = k' := fun hh => h0 (h1.trans hh.symm)
          simp [h1, if_neg hkk]
        · simp [h1, ih]

theorem callLoop_snd_get (args : List Arg) (tup : List JSVal)
    (named : List (String × JSVal)) (k : String) :
    recordGet (callLoop args tup named).2 k =
      match lastNamed args k with
      | some v => some v
      | none => recordGet named k := by
  induction args generalizing tup named with
  | nil => simp [callLoop, lastNamed]
  | cons a rest ih =>
      cases a with
      | pos v => simp only [callLoop, lastNamed]; exact ih _ _
      | named k0 v =>
          simp only [callLoop, lastNamed]
          rw [ih]
          cases h : lastNamed rest k with
          | some w => rfl
          | none =>
              simp only
              rw [recordGet_recordSet]
              by_cases hk : k0 = k <;> simp [hk]

/-! # Claim theorems -/

/-- C1: `PyObject.call` hoists every `NamedArgument` of the positional
list into the keyword mapping (merged over the caller-supplied named
record, a later marker for the same name winning) and the remaining
entries become the positional tuple in their original relative order; in
particular `[1, 2, NamedArgument("name","x"), {a:1}]` yields the
3-element tuple `(1, 2, {a:1})` and the keyword dict `{name: "x"}`. -/
theorem call_partitions_named_arguments :
    (∀ (positional : List Arg) (named : List (String × JSVal))
        (tup : List JSVal) (kw : List (String × JSVal)),
      callBuildArgs positional named = .ok ⟨tup, kw⟩ →
        tup = posOnly positional ∧
        ∀ k, recordGet kw k =
          match lastNamed positional k with
          | some v => some v
          | none => recordGet named k) ∧
    callBuildArgs
        [.pos (.vInt 1), .pos (.vInt 2), .named "name" (.vStr "x"),
         .pos (.vObj [("a", .vInt 1)])] [] =
      .ok ⟨[.vInt 1, .vInt 2, .vObj [("a", .vInt 1)]],
           [("name", .vStr "x")]⟩ := by
  constructor
  · intro positional named tup kw h
    unfold callBuildArgs at h
    split_ifs at h with hneg
    simp only [Except.ok.injEq, CallArgs.mk.injEq] at h
    obtain ⟨h1, h2⟩ := h
    subst h1
    subst h2
    constructor
    · simpa using callLoop_fst positional [] named
    · intro k
      exact callLoop_snd_get positional [] named k
  · rfl

/-- Witness for C1: the general conjunct applied to the concrete list
`[7, NamedArgument("k","w")]` with an empty caller record. -/
theorem call_partitions_named_arguments_witness :
    [JSVal.vInt 7] = posOnly [Arg.pos (.vInt 7), Arg.named "k" (.vStr "w")] ∧
    ∀ key, recordGet [("k", JSVal.vStr "w")] key =
      match lastNamed [Arg.pos (.vInt 7), Arg.named "k" (.vStr "w")] key with
      | some v => some v
      | none => recordGet [] key :=
  call_partitions_named_arguments.1
    [Arg.pos (.vInt 7), Arg.named "k" (.vStr "w")] [] _ _ rfl

/-- C9: the count of true positional entries can never be negative (the
named count is a sub-filter of the list), so the defensive
`ArgumentCountError` branch of `PyObject.call` is unreachable: argument
assembly errors exactly when the count is negative, hence never, and
always produces a tuple/kwargs pair. -/
theorem call_argument_count_nonnegative (positional : List Arg)
    (named : List (String × JSVal)) :
    0 ≤ positionalCount positional ∧
    ((∃ msg, callBuildArgs positional named = .error msg) ↔
      positionalCount positional < 0) ∧
    ∃ ca, callBuildArgs positional named = .ok ca := by
  have hle : (positional.filter Arg.isNamed).length ≤ positional.length :=
    List.length_filter_le _ _
  have h0 : 0 ≤ positionalCount positional := by
    unfold positionalCount namedCount; omega
  refine ⟨h0, ⟨?_, ?_⟩, ?_⟩
  · rintro ⟨msg, hm⟩
    unfold callBuildArgs at hm
    split_ifs at hm with hneg
    exact hneg
  · intro hneg; omega
  · unfold callBuildArgs
    split_ifs with hneg
    · exact absurd hneg (not_lt.mpr h0)
    · exact ⟨_, rfl⟩

/-- C3: `valueOf` coerces to a native host value exactly when the foreign
type handle is identical to one of the nine cached builtin handles
(none/bool/int/float/str/list/dict/set/tuple), dispatching to the matching
accessor; every other object — including builtin subclass instances, whose
exact type handle differs from the cached one (`valueOfDispatch` consults
no `isinstance` information at all) — falls through to the Dynamic Proxy. -/
theorem valueOf_dispatch_exact_type (tc : TypeCache) (ty : Handle)
    (hnodup : (cachedTypes tc).Nodup) :
    (valueOfDispatch tc ty = .proxy ↔ ty ∉ cachedTypes tc) ∧
    (ty = tc.noneType → valueOfDispatch tc ty = .toNull) ∧
    (ty = tc.boolType → valueOfDispatch tc ty = .asBoolean) ∧
    (ty = tc.intType → valueOfDispatch tc ty = .asLong) ∧
    (ty = tc.floatType → valueOfDispatch tc ty = .asDouble) ∧
    (ty = tc.strType → valueOfDispatch tc ty = .asString) ∧
    (ty = tc.listType → valueOfDispatch tc ty = .asArray) ∧
    (ty = tc.dictType → valueOfDispatch tc ty = .asDict) ∧
    (ty = tc.setType → valueOfDispatch tc ty = .asSet) ∧
    (ty = tc.tupleType → valueOfDispatch tc ty = .asTuple) := by
  simp only [cachedTypes, List.nodup_cons, List.mem_cons,
    List.not_mem_nil, or_false, List.nodup_nil, and_true] at hnodup
  unfold valueOfDispatch
  split_ifs with h1 h2 h3 h4 h5 h6 h7 h8 h9 <;>
    simp_all [cachedTypes]

/-- Witness for C3: with distinct cached handles 1..9, type handle 2 (the
cached bool handle) coerces via `asBoolean`, and type handle 42 (matching
no cached handle) falls through to the proxy. -/
theorem valueOf_dispatch_exact_type_witness :
    valueOfDispatch ⟨1, 2, 3, 4, 5, 6, 7, 8, 9⟩ 2 = .asBoolean ∧
    valueOfDispatch ⟨1, 2, 3, 4, 5, 6, 7, 8, 9⟩ 42 = .proxy :=
  ⟨(valueOf_dispatch_exact_type ⟨1, 2, 3, 4, 5, 6, 7, 8, 9⟩ 2
      (by decide)).2.2.1 rfl,
   (valueOf_dispatch_exact_type ⟨1, 2, 3, 4, 5, 6, 7, 8, 9⟩ 42
      (by decide)).1.mpr (by decide)⟩

/-! ### Concrete foreign objects used as inputs -/

/-- A plain foreign object: no instance relations, no attributes, no
items, every lookup fails. -/
def emptyObj : PyObjState where
  isListInst := false
  isTupleInst := false
  isDictInst := false
  attrs := fun _ => none
  hasAttrFn := fun _ => false
  dictItems := fun _ => none
  listItems := fun _ => none
  sliceItems := fun _ => none
  setAttrStatus := fun _ => 0

/-- A foreign dict with no attributes. -/
def dictObj : PyObjState where
  isListInst := false
  isTupleInst := false
  isDictInst := true
  attrs := fun _ => none
  hasAttrFn := fun _ => false
  dictItems := fun _ => none
  listItems := fun _ => none
  sliceItems := fun _ => none
  setAttrStatus := fun _ => 0

/-- A 3-element foreign list (handles 5, 6, 7 at indices 0, 1, 2) with no
attributes; index-get outside the range fails (`IndexError`). -/
def listObj : PyObjState where
  isListInst := true
  isTupleInst := false
  isDictInst := false
  attrs := fun _ => none
  hasAttrFn := fun _ => false
  dictItems := fun _ => none
  listItems := fun i => if i < 3 then some (5 + i) else none
  sliceItems := fun _ => none
  setAttrStatus := fun _ => 0

/-- A foreign object carrying an attribute named `toString` (handle 7),
e.g. an instance whose class defines a `toString` method. -/
def toStringAttrObj : PyObjState where
  isListInst := false
  isTupleInst := false
  isDictInst := false
  attrs := fun n => if n = "toString" then some 7 else none
  hasAttrFn := fun n => n = "toString"
  dictItems := fun _ => none
  listItems := fun _ => none
  sliceItems := fun _ => none
  setAttrStatus := fun _ => 0

/-- A list subclass instance (isinstance of list) with items at indices
0..2 (handles 5, 6, 7) that also carries an attribute named `"0"`
(handle 3), as `setattr(obj, "0", v)` produces on a `class L(list)`. -/
def listWithNumericAttr : PyObjState where
  isListInst := true
  isTupleInst := false
  isDictInst := false
  attrs := fun n => if n = "0" then some 3 else none
  hasAttrFn := fun n => n = "0"
  dictItems := fun _ => none
  listItems := fun i => if i < 3 then some (5 + i) else none
  sliceItems := fun _ => none
  setAttrStatus := fun _ => 0

/-! ### C4: reserved facade members -/

/-- C4 counterexample: on a foreign object that has an attribute named
`toString`, the proxy Get for the reserved conversion member `toString`
is forwarded to the foreign attribute (handle 7) and is NOT satisfied
internally by the facade — refuting the claim that reserved facade
members are resolved in step (1) before any foreign attribute lookup. -/
theorem facade_string_member_forwarded_cex :
    proxyGet toStringAttrObj (.strK "toString") = .attrG 7 ∧
    proxyGet toStringAttrObj (.strK "toString") ≠
      .facadeMember (.strK "toString") := by
  decide

/-- C4 (amended): symbol-keyed reserved facade members (the
proxied-object back-reference, the iteration protocol, the inspect hooks)
are always satisfied internally in step (1) and never forwarded; the
string-named conversion members `toString`/`valueOf` are satisfied by the
facade only when the foreign object has no same-named attribute — a
same-named foreign attribute takes precedence (the source documents this
preference: "preference is given to Python object first"). -/
theorem facade_member_resolution (st : PyObjState) :
    (∀ s : SymKey, facadeSymbols s = true →
      proxyGet st (.symK s) = .facadeMember (.symK s)) ∧
    (∀ n : String, (n = "toString" ∨ n = "valueOf") →
      st.attrs n = none →
      proxyGet st (.strK n) = .facadeMember (.strK n)) ∧
    (∀ n : String, (n = "toString" ∨ n = "valueOf") →
      ∀ h : Handle, st.attrs n = some h →
      proxyGet st (.strK n) = .attrG h) := by
  refine ⟨?_, ?_, ?_⟩
  · intro s hs
    simp [proxyGet, hs]
  · rintro n (rfl | rfl) ha
    · have hd : digitTest "toString" = false := rfl
      have hsl : isSlice "toString" = false := rfl
      have hf : facadeHas (.strK "toString") = true := rfl
      simp [proxyGet, getSlicePhase, getAttrPhase, keyToString, hd, hsl,
        hf, ha]
    · have hd : digitTest "valueOf" = false := rfl
      have hsl : isSlice "valueOf" = false := rfl
      have hf : facadeHas (.strK "valueOf") = true := rfl
      simp [proxyGet, getSlicePhase, getAttrPhase, keyToString, hd, hsl,
        hf, ha]
  · rintro n (rfl | rfl) h ha
    · have hd : digitTest "toString" = false := rfl
      have hsl : isSlice "toString" = false := rfl
      simp [proxyGet, getSlicePhase, getAttrPhase, keyToString, hd, hsl, ha]
    · have hd : digitTest "valueOf" = false := rfl
      have hsl : isSlice "valueOf" = false := rfl
      simp [proxyGet, getSlicePhase, getAttrPhase, keyToString, hd, hsl, ha]

/-- Witness for the amended C4: the iteration symbol resolves internally
on an object that even has a `toString` attribute, and `valueOf` resolves
internally on an attribute-free object. -/
theorem facade_member_resolution_witness :
    proxyGet toStringAttrObj (.symK .iteratorSym) =
      .facadeMember (.symK .iteratorSym) ∧
    proxyGet emptyObj (.strK "valueOf") = .facadeMember (.strK "valueOf") :=
  ⟨(facade_member_resolution toStringAttrObj).1 .iteratorSym rfl,
   (facade_member_resolution emptyObj).2.1 "valueOf" (Or.inr rfl) rfl⟩

/-! ### C5: attribute / item precedence -/

/-- C5 counterexample: a foreign list-instance that has an attribute
named `"0"` (handle 3) — proxy Get of `"0"` returns the list ITEM
(handle 5), not the attribute, because the integer-index branch runs
before attribute lookup; this refutes "for every proxy over a foreign
object that has an attribute named n, Get(n) returns that attribute". -/
theorem attr_precedence_cex :
    listWithNumericAttr.attrs "0" = some 3 ∧
    proxyGet listWithNumericAttr (.strK "0") = .listItemG 5 := by
  decide

theorem getAttrPhase_attr (st : PyObjState) (n : String) (h : Handle)
    (ha : st.attrs n = some h) :
    getAttrPhase st (.strK n) = .attrG h := by
  simp [getAttrPhase, keyToString, ha]

theorem getSlicePhase_no_dict (st : PyObjState) (n : String) (h : Handle)
    (ha : st.attrs n = some h) :
    ∀ h', getSlicePhase st n ≠ .dictItemG h' := by
  intro h'
  unfold getSlicePhase
  split_ifs with hs
  · cases hsi : st.sliceItems (toSlice n) <;>
      simp [hsi, getAttrPhase_attr st n h ha]
  · simp [getAttrPhase_attr st n h ha]

/-- C5 (amended): the mapping-item fallback can never shadow an existing
attribute (the dict branch runs only when attribute lookup fails), and
for names that are neither integer-shaped nor slice-shaped the attribute
is returned outright; Set on a mapping with no same-named attribute
stores the mapping item (and reports success).  What the original claim
missed: the integer-index branch on list/tuple instances and the slice
branch run BEFORE attribute lookup in Get. -/
theorem attr_precedes_mapping_item (st : PyObjState) :
    (∀ (n : String) (h : Handle), st.attrs n = some h →
      ∀ h' : Handle, proxyGet st (.strK n) ≠ .dictItemG h') ∧
    (∀ (n : String) (h : Handle), st.attrs n = some h →
      digitTest n = false → isSlice n = false →
      proxyGet st (.strK n) = .attrG h) ∧
    (∀ n : String, st.hasAttrFn n = false → st.isDictInst = true →
      proxySet st (.strK n) = (.dictItemSet, true)) := by
  refine ⟨?_, ?_, ?_⟩
  · intro n h ha h'
    simp only [proxyGet]
    split
    · cases hli : st.listItems (natOfDigits n.toList) with
      | some h2 => simp [hli]
      | none => simp only [hli]; exact getSlicePhase_no_dict st n h ha h'
    · exact getSlicePhase_no_dict st n h ha h'
  · intro n h ha hd hs
    simp [proxyGet, hd, getSlicePhase, hs, getAttrPhase_attr st n h ha]
  · intro n h1 h2
    simp [proxySet, keyToString, h1, h2]

/-- Witness for the amended C5: Set of a fresh key on an attribute-free
dict stores the mapping item, and Get of a plain attribute name returns
the attribute. -/
theorem attr_precedes_mapping_item_witness :
    proxySet dictObj (.strK "x") = (.dictItemSet, true) ∧
    proxyGet toStringAttrObj (.strK "toString") = .attrG 7 :=
  ⟨(attr_precedes_mapping_item dictObj).2.2 "x" rfl rfl,
   (attr_precedes_mapping_item toStringAttrObj).2.1 "toString" 7 rfl rfl rfl⟩

/-! ### C2: error checks after item mutation -/

/-- C2 (the code violates the spec here): evaluated on concrete inputs,
the proxy set handler's dict item-set, list index-set and slice item-set
paths perform their foreign mutation and return `true` WITHOUT invoking
`maybeThrowError`, and the get handler's failed list index-get performs no
error check either (its pending `IndexError` is silently swallowed by the
`PyErr_Clear` inside the subsequent `maybeGetAttr`). -/
theorem item_mutation_skips_error_check :
    (proxySetTrace dictObj (.strK "x") =
        [.opHasAttrString "x", .opDictSetItemString "x"] ∧
      FfiOp.opErrCheck ∉ proxySetTrace dictObj (.strK "x")) ∧
    (proxySetTrace listObj (.strK "5") =
        [.opHasAttrString "5", .opListSetItem 5] ∧
      FfiOp.opErrCheck ∉ proxySetTrace listObj (.strK "5")) ∧
    (proxySetTrace emptyObj (.strK "1:") =
        [.opHasAttrString "1:",
         .opObjectSetItem (.sliceE (some 1) none none)] ∧
      FfiOp.opErrCheck ∉ proxySetTrace emptyObj (.strK "1:")) ∧
    (proxyGetTrace listObj (.strK "7") =
        [.opListGetItem 7, .opGetAttrString "7", .opErrClear] ∧
      FfiOp.opErrCheck ∉ proxyGetTrace listObj (.strK "7")) := by
  have h1 : proxySetTrace dictObj (.strK "x") =
      [.opHasAttrString "x", .opDictSetItemString "x"] := rfl
  have h2 : proxySetTrace listObj (.strK "5") =
      [.opHasAttrString "5", .opListSetItem 5] := rfl
  have h3 : proxySetTrace emptyObj (.strK "1:") =
      [.opHasAttrString "1:",
       .opObjectSetItem (.sliceE (some 1) none none)] := rfl
  have h4 : proxyGetTrace listObj (.strK "7") =
      [.opListGetItem 7, .opGetAttrString "7", .opErrClear] := rfl
  exact ⟨⟨h1, by rw [h1]; simp⟩, ⟨h2, by rw [h2]; simp⟩,
    ⟨h3, by rw [h3]; simp⟩, ⟨h4, by rw [h4]; simp⟩⟩

/-! ### C6: the slice mini-language as proxy index keys -/

theorem all_digits_no_colon {l : List Char} (h : l.all Char.isDigit = true) :
    hasChar ':' l = false := by
  induction l with
  | nil => rfl
  | cons c rest ih =>
      simp only [List.all_cons, Bool.and_eq_true] at h
      have hc : ¬ c = ':' := by
        intro hh; subst hh; exact absurd h.1 (by decide)
      have hc' : (c == ':') = false := beq_eq_false_iff_ne.mpr hc
      have ih' := ih h.2
      simp only [hasChar, List.any_cons, hc', Bool.false_or]
      simpa [hasChar] using ih'

theorem all_digits_no_ellipsis {l : List Char}
    (h : l.all Char.isDigit = true) : hasEllipsisSub l = false := by
  induction l with
  | nil => rfl
  | cons c rest ih =>
      simp only [List.all_cons, Bool.and_eq_true] at h
      have hc : ¬ c = '.' := by
        intro hh; subst hh; exact absurd h.1 (by decide)
      have hc' : (c == '.') = false := beq_eq_false_iff_ne.mpr hc
      simp [hasEllipsisSub, hc', ih h.2]

/-- A slice-conforming key is never integer-shaped (it must contain a
colon or an ellipsis), so the integer-index branch of the get trap never
preempts the slice branch. -/
theorem isSlice_digitTest_false {s : String} (h : isSlice s = true) :
    digitTest s = false := by
  cases hdt : digitTest s with
  | false => rfl
  | true =>
      exfalso
      unfold digitTest at hdt
      simp only [Bool.and_eq_true] at hdt
      have hall := hdt.2
      unfold isSlice isSliceL at h
      rw [all_digits_no_colon hall, all_digits_no_ellipsis hall] at h
      simp at h

/-- C6: every proxy index key conforming to the slice mini-language is
parsed by `toSlice` into the corresponding foreign slice object (or tuple
of slices/indices/ellipses) and handed to the foreign `PyObject_GetItem`,
whose successful result the handler returns.  Concretely `"1:"` parses to
`slice(1, None, None)` and on a 9-element list selects elements 2..9, and
`"::2"` parses to `slice(None, None, 2)` and selects every other element
starting at index 0. -/
theorem slice_keys_parsed_and_fetched :
    (∀ (st : PyObjState) (s : String), isSlice s = true →
      FfiOp.opObjectGetItem (toSlice s) ∈ proxyGetTrace st (.strK s) ∧
      ∀ h : Handle, st.sliceItems (toSlice s) = some h →
        proxyGet st (.strK s) = .sliceItemG h) ∧
    isSlice "1:" = true ∧
    toSlice "1:" = .sliceE (some 1) none none ∧
    isSlice "::2" = true ∧
    toSlice "::2" = .sliceE none none (some 2) ∧
    sliceListGet [10, 20, 30, 40, 50, 60, 70, 80, 90] (some 1) none 1 =
      [20, 30, 40, 50, 60, 70, 80, 90] ∧
    sliceListGet [(10 : Int), 20, 30, 40, 50, 60, 70, 80, 90] none none 2 =
      [10, 30, 50, 70, 90] := by
  refine ⟨?_, by decide, rfl, by decide, rfl, by decide, by decide⟩
  intro st s hs
  have hd : digitTest s = false := isSlice_digitTest_false hs
  constructor
  · simp [proxyGetTrace, hd, getSlicePhaseTrace, hs]
  · intro h hitem
    simp [proxyGet, hd, getSlicePhase, hs, hitem]

/-- A foreign object whose slice item-get succeeds with handle 9. -/
def slicedObj : PyObjState :=
  { emptyObj with sliceItems := fun _ => some 9 }

/-- Witness for C6: the general conjunct applied to the key `"1:"` on a
sliceable object. -/
theorem slice_keys_parsed_and_fetched_witness :
    FfiOp.opObjectGetItem (toSlice "1:") ∈
      proxyGetTrace slicedObj (.strK "1:") ∧
    proxyGet slicedObj (.strK "1:") = .sliceItemG 9 :=
  ⟨(slice_keys_parsed_and_fetched.1 slicedObj "1:" (by decide)).1,
   (slice_keys_parsed_and_fetched.1 slicedObj "1:" (by decide)).2 9 rfl⟩

/-! ### C7: maybeGetAttr -/

/-- C7: `maybeGetAttr` returns the attribute's wrapper exactly when the
foreign lookup succeeds and the explicit absent-marker otherwise; a failed
lookup always leaves the foreign error indicator cleared, and — given the
indicator was clear on entry, the discipline under which the bridge calls
the C API — it is clear after every call; no exception path exists (the
result is a plain pair, in contrast to `getAttr` which throws). -/
theorem maybeGetAttr_speculative :
    (∀ (lookup : Option Handle) (st : PyErrState),
      (maybeGetAttr lookup st).1 = lookup) ∧
    (∀ st : PyErrState, (maybeGetAttr none st).2.errSet = false) ∧
    (∀ (lookup : Option Handle) (st : PyErrState), st.errSet = false →
      (maybeGetAttr lookup st).2.errSet = false) := by
  refine ⟨?_, ?_, ?_⟩
  · intro lookup st
    cases lookup <;> rfl
  · intro st; rfl
  · intro lookup st hclean
    cases lookup with
    | none => rfl
    | some h => simpa [maybeGetAttr, pyGetAttrString] using hclean

/-- Witness for C7: a successful lookup (handle 5) from a clean state
leaves the indicator clear. -/
theorem maybeGetAttr_speculative_witness :
    (maybeGetAttr (some 5) ⟨false⟩).2.errSet = false :=
  maybeGetAttr_speculative.2.2 (some 5) ⟨false⟩ rfl

/-! ### C8: Python.run -/

/-- C8: `Python.run` returns normally exactly when the foreign
code-execution entry point reports status 0 and throws `EvalError`
exactly when the status is nonzero. -/
theorem run_evalerror_iff_nonzero (simpleString : String → Int)
    (code : String) :
    (pythonRun simpleString code = .ok () ↔ simpleString code = 0) ∧
    (pythonRun simpleString code =
        .error "EvalError: Failed to run python code" ↔
      simpleString code ≠ 0) := by
  unfold pythonRun
  split_ifs with h <;> simp_all

/-! ### C10: the Callback trampoline -/

/-- C10: a null foreign kwargs handle makes the host callback receive the
empty keyword record (not null, not an error), a null positional handle
makes it receive zero positional values, and in every case the host
return value is converted with `PyObject.from` and that object's handle
is what the trampoline returns to the foreign call site. -/
theorem callback_null_pointer_defaults
    (fromVal : JSVal → PyObjRef)
    (asDictEntries : Handle → List (String × JSVal))
    (valueOfList : Handle → List JSVal)
    (callback : List (String × JSVal) → List JSVal → JSVal) :
    (∀ a : Handle,
      callbackTrampoline fromVal asDictEntries valueOfList callback
          (some a) none =
        (fromVal (callback [] (valueOfList a))).handle) ∧
    (∀ k : Handle,
      callbackTrampoline fromVal asDictEntries valueOfList callback
          none (some k) =
        (fromVal (callback (asDictEntries k) [])).handle) ∧
    (callbackTrampoline fromVal asDictEntries valueOfList callback
        none none =
      (fromVal (callback [] [])).handle) ∧
    (∀ args kwargs : Option Handle, ∃ v : JSVal,
      callbackTrampoline fromVal asDictEntries valueOfList callback
          args kwargs = (fromVal v).handle) :=
  ⟨fun _ => rfl, fun _ => rfl, rfl, fun _ _ => ⟨_, rfl⟩⟩

end DenoPython

